import Mathlib

/-!
Shallow embedding of the dimension-resolution engine of the `ligna`
repository (`src/services/chartaApi.ts`): the safe expression evaluator
`evaluateExpression`, the context builder `buildExpressionContext`, the
material resolver `getMaterialThickness` and the part rule processor
`calculateParts`, together with theorems settling the specification
claims about them.

JavaScript numbers are modelled as exact rationals extended with the
three IEEE special values `+Infinity`, `-Infinity` and `NaN`
(`JsNum`).  Finite double rounding and the negative zero are not
modelled; all concrete inputs used below stay well inside the range
where the idealisation agrees with IEEE doubles.
-/

namespace Ligna

/-- A JavaScript number: an exact rational, an infinity, or NaN. -/
inductive JsNum where
  | fin (q : ℚ)
  | posInf
  | negInf
  | nan
deriving DecidableEq, Repr

namespace JsNum

/-- Addition, with the IEEE special-value rules used by JS `+`. -/
def add : JsNum → JsNum → JsNum
  | nan, _ => nan
  | _, nan => nan
  | posInf, negInf => nan
  | negInf, posInf => nan
  | posInf, _ => posInf
  | _, posInf => posInf
  | negInf, _ => negInf
  | _, negInf => negInf
  | fin a, fin b => fin (a + b)

/-- Negation. -/
def neg : JsNum → JsNum
  | nan => nan
  | posInf => negInf
  | negInf => posInf
  | fin a => fin (-a)

/-- Subtraction: JS `a - b` behaves as `a + (-b)` on all special values. -/
def sub (a b : JsNum) : JsNum := add a (neg b)

/-- Multiplication, with the IEEE rules (`0 * Infinity = NaN`). -/
def mul : JsNum → JsNum → JsNum
  | nan, _ => nan
  | _, nan => nan
  | posInf, posInf => posInf
  | posInf, negInf => negInf
  | negInf, posInf => negInf
  | negInf, negInf => posInf
  | posInf, fin b => if b = 0 then nan else if 0 < b then posInf else negInf
  | negInf, fin b => if b = 0 then nan else if 0 < b then negInf else posInf
  | fin a, posInf => if a = 0 then nan else if 0 < a then posInf else negInf
  | fin a, negInf => if a = 0 then nan else if 0 < a then negInf else posInf
  | fin a, fin b => fin (a * b)

/-- Division, with the IEEE rules (`x/0` is a signed infinity for
`x ≠ 0` and NaN for `x = 0`; the negative zero is not modelled). -/
def div : JsNum → JsNum → JsNum
  | nan, _ => nan
  | _, nan => nan
  | posInf, posInf => nan
  | posInf, negInf => nan
  | negInf, posInf => nan
  | negInf, negInf => nan
  | posInf, fin b => if 0 ≤ b then posInf else negInf
  | negInf, fin b => if 0 ≤ b then negInf else posInf
  | fin _, posInf => fin 0
  | fin _, negInf => fin 0
  | fin a, fin b =>
      if b = 0 then (if a = 0 then nan else if 0 < a then posInf else negInf)
      else fin (a / b)

end JsNum

/-- JS `Math.round`: round half toward positive infinity. -/
def jsRound (q : ℚ) : ℤ := Rat.floor (q + 1/2)

/-- `Math.round(x * 100) / 100`: round to two decimal places. -/
def roundTo2 (q : ℚ) : ℚ := (jsRound (q * 100) : ℚ) / 100

/-- `Math.round` lifted to JS numbers (infinities round to themselves). -/
def jsRoundNum : JsNum → JsNum
  | JsNum.fin q => JsNum.fin ((jsRound q : ℚ))
  | JsNum.posInf => JsNum.posInf
  | JsNum.negInf => JsNum.negInf
  | JsNum.nan => JsNum.nan

/-- The JS comparison `x <= 0` (false on NaN). -/
def jsLeZero : JsNum → Bool
  | JsNum.fin q => decide (q ≤ 0)
  | JsNum.posInf => false
  | JsNum.negInf => true
  | JsNum.nan => false

/-- `Math.max(1, x)` as applied to an already-rounded quantity. -/
def jsMaxOne : JsNum → JsNum
  | JsNum.fin q => JsNum.fin (max 1 q)
  | JsNum.posInf => JsNum.posInf
  | JsNum.negInf => JsNum.fin 1
  | JsNum.nan => JsNum.nan

/-! ## String rendering of context values

`String(value)` for the finite numbers that occur in expression
contexts.  Contexts are built from decimal inputs, so every value has
a finite decimal expansion; values whose expansion does not terminate
within 64 digits cannot occur from such inputs and are rendered
truncated. -/

/-- Decimal digits of a natural number, most significant first. -/
def natDigits (n : Nat) : List Char := (Nat.toDigits 10 n)

/-- Least `k ≤ bound` with `den ∣ 10^k`, if any. -/
def decExponent (den : Nat) : Nat → Option Nat
  | 0 => if den ∣ 1 then some 0 else none
  | Nat.succ b =>
      match decExponent den b with
      | some k => some k
      | none => if den ∣ 10 ^ (b + 1) then some (b + 1) else none

/-- Render a nonnegative rational `num/den` (lowest terms) in decimal,
with a leading `0` before the point and no trailing zeros, matching
JS `String(x)` for finite-decimal values. -/
def posRatToChars (num den : Nat) : List Char :=
  match decExponent den 64 with
  | some 0 => natDigits (num / den)
  | some k =>
      let scaled := num * 10 ^ k / den
      let intPart := scaled / 10 ^ k
      let fracPart := scaled % 10 ^ k
      let fracDigits :=
        let raw := natDigits fracPart
        List.replicate (k - raw.length) '0' ++ raw
      let trimmed := (fracDigits.reverse.dropWhile (· = '0')).reverse
      if trimmed.isEmpty then natDigits intPart
      else natDigits intPart ++ '.' :: trimmed
  | none =>
      -- cannot arise from decimal inputs; truncate at 64 digits
      let scaled := num * 10 ^ 64 / den
      natDigits (scaled / 10 ^ 64) ++ '.' :: natDigits (scaled % 10 ^ 64)

/-- `String(value)` for a rational context value. -/
def numToChars (q : ℚ) : List Char :=
  if q < 0 then '-' :: posRatToChars q.num.natAbs q.den
  else posRatToChars q.num.natAbs q.den

/-! ## Character classes and basic string operations -/

/-- JS whitespace (the ASCII part, which is all that matters here). -/
def isWsChar (c : Char) : Bool :=
  c = ' ' || c = '\t' || c = '\n' || c = '\r' || c = '\x0b' || c = '\x0c'

/-- Characters accepted by the safety regex `^[\d\s+\-*/().]+$`. -/
def isSafeChar (c : Char) : Bool :=
  c.isDigit || isWsChar c || c = '+' || c = '-' || c = '*' || c = '/' ||
  c = '(' || c = ')' || c = '.'

/-- The safety test: nonempty and every character safe
(the regex needs at least one character to match). -/
def isSafe (s : List Char) : Bool := !s.isEmpty && s.all isSafeChar

/-- `String.prototype.trim`. -/
def jsTrim (s : List Char) : List Char :=
  ((s.dropWhile isWsChar).reverse.dropWhile isWsChar).reverse

/-- `String.prototype.toLowerCase` (ASCII). -/
def toLowerChars (s : List Char) : List Char := s.map Char.toLower

/-- One pass of global regex replacement: scan left to right, replace
each non-overlapping occurrence of `key`, never rescanning the
replacement text.  `fuel` starts at the string length; each step
consumes at least one character. -/
def replaceFrom (key val : List Char) : Nat → List Char → List Char
  | _, [] => []
  | 0, s => s
  | Nat.succ n, c :: rest =>
      if key.isPrefixOf (c :: rest) then
        val ++ replaceFrom key val n (List.drop (key.length - 1) rest)
      else
        c :: replaceFrom key val n rest

/-- `str.replace(new RegExp(key, 'gi'), val)` for a literal key.
Keys in expression contexts are nonempty identifiers; the empty key
does not occur and is left as the identity. -/
def replaceAll (key val s : List Char) : List Char :=
  if key.isEmpty then s else replaceFrom key val s.length s

/-! ## Expression contexts

A context is the ordered list of (key, value) properties of the JS
object, in property-insertion order.  Assigning to an existing key
keeps its position; assigning a fresh key appends it — exactly the JS
object property-order semantics. -/

/-- An expression context: ordered key/value properties. -/
abbrev Ctx := List (String × ℚ)

/-- `context[k] = v`: update in place if present, else append. -/
def ctxSet (ctx : Ctx) (k : String) (v : ℚ) : Ctx :=
  if ctx.any (fun p => p.1 == k) then
    ctx.map (fun p => if p.1 == k then (k, v) else p)
  else ctx ++ [(k, v)]

/-- `context[k]` (0 for an absent key; the engine only reads keys it
has set). -/
def ctxGet (ctx : Ctx) (k : String) : ℚ :=
  ((ctx.find? (fun p => p.1 == k)).map Prod.snd).getD 0

/-- A sequence of assignments `context[k] = v`, left to right. -/
def applySets (ctx : Ctx) (l : List (String × ℚ)) : Ctx :=
  l.foldl (fun c p => ctxSet c p.1 p.2) ctx

/-- Stable insertion of one key into a list sorted by key length,
longest first: an element moves past another only when its key is
strictly longer. -/
def insertByLen (p : String × ℚ) : List (String × ℚ) → List (String × ℚ)
  | [] => [p]
  | q :: rest =>
      if p.1.length < q.1.length then q :: insertByLen p rest
      else p :: q :: rest

/-- `Object.keys(context).sort((a, b) => b.length - a.length)`:
a stable sort by key length, longest first (JS `sort` is stable). -/
def sortKeysByLen (ctx : Ctx) : Ctx := ctx.foldr insertByLen []

/-- Substitution of every context variable into the expression,
longest keys first; matching is case-insensitive against the already
lower-cased expression, so keys are matched lower-cased. -/
def substituteVars (ctx : Ctx) (s : List Char) : List Char :=
  (sortKeysByLen ctx).foldl
    (fun acc p => replaceAll (toLowerChars p.1.data) (numToChars p.2) acc) s

/-- The residue: the expression lower-cased, trimmed, and with all
context variables substituted. -/
def residue (s : String) (ctx : Ctx) : List Char :=
  substituteVars ctx (jsTrim (toLowerChars s.data))

/-! ## Arithmetic evaluation of a safe residue

The residue, when it passes the safety check, is handed to
`new Function('"use strict"; return (…)')()`.  Over the safe character
set this is the strict-mode JS expression grammar restricted to
numeric literals, unary and binary `+ - * /` and parentheses.  A
lexing or parsing failure models the `SyntaxError`/`TypeError` path,
which the surrounding `try` turns into 0. -/

/-- Tokens over the safe character set.  `plusplus`/`minusminus`
exist because JS lexes `--`/`++` by maximal munch as update operators,
which are syntax errors in these expressions. -/
inductive Tok where
  | num (q : ℚ)
  | plus | minus | star | slash | lparen | rparen
  | plusplus | minusminus
deriving DecidableEq, Repr

/-- Value of a decimal digit string. -/
def digitsVal (l : List Char) : Nat :=
  l.foldl (fun acc c => 10 * acc + (c.toNat - '0'.toNat)) 0

/-- Lex one numeric literal starting at the current position:
`digits [. digits]` or `. digits`.  Returns `none` for a lone `.`
and for a multi-digit literal with a leading `0` (strict mode rejects
legacy-octal-looking literals). -/
def lexNum (s : List Char) : Option (ℚ × List Char) :=
  let intPart := s.takeWhile Char.isDigit
  let rest1 := s.dropWhile Char.isDigit
  match rest1 with
  | '.' :: rest2 =>
      let fracPart := rest2.takeWhile Char.isDigit
      let rest3 := rest2.dropWhile Char.isDigit
      if intPart.isEmpty && fracPart.isEmpty then none
      else if intPart.length > 1 && intPart.head? = some '0' then none
      else some ((digitsVal intPart : ℚ) +
        (digitsVal fracPart : ℚ) / (10 ^ fracPart.length : ℚ), rest3)
  | _ =>
      if intPart.isEmpty then none
      else if intPart.length > 1 && intPart.head? = some '0' then none
      else some ((digitsVal intPart : ℚ), rest1)

/-- Tokenizer over the safe character set, maximal munch. -/
def lexTokens : Nat → List Char → Option (List Tok)
  | _, [] => some []
  | 0, _ => none
  | Nat.succ n, c :: rest =>
      if isWsChar c then lexTokens n rest
      else if c = '+' then
        match rest with
        | '+' :: rest2 => (lexTokens n rest2).map (Tok.plusplus :: ·)
        | _ => (lexTokens n rest).map (Tok.plus :: ·)
      else if c = '-' then
        match rest with
        | '-' :: rest2 => (lexTokens n rest2).map (Tok.minusminus :: ·)
        | _ => (lexTokens n rest).map (Tok.minus :: ·)
      else if c = '*' then (lexTokens n rest).map (Tok.star :: ·)
      else if c = '/' then (lexTokens n rest).map (Tok.slash :: ·)
      else if c = '(' then (lexTokens n rest).map (Tok.lparen :: ·)
      else if c = ')' then (lexTokens n rest).map (Tok.rparen :: ·)
      else
        match lexNum (c :: rest) with
        | some (q, rest2) =>
            if rest2.length < (c :: rest).length then
              (lexTokens n rest2).map (Tok.num q :: ·)
            else none
        | none => none

/-- Lex a whole residue. -/
def lex (s : List Char) : Option (List Tok) := lexTokens s.length s

mutual

/-- Additive expression: left-associated `+`/`-` over multiplicative
expressions.  All parser functions spend one unit of fuel per call;
`parseTokens` supplies enough fuel that exhaustion is unreachable. -/
def parseAdd : Nat → List Tok → Option (JsNum × List Tok)
  | 0, _ => none
  | Nat.succ n, ts =>
      match parseMul n ts with
      | some (v, rest) => parseAddTail n v rest
      | none => none

/-- Continuation of an additive chain. -/
def parseAddTail : Nat → JsNum → List Tok → Option (JsNum × List Tok)
  | 0, _, _ => none
  | Nat.succ n, acc, ts =>
      match ts with
      | Tok.plus :: rest =>
          match parseMul n rest with
          | some (v, rest2) => parseAddTail n (acc.add v) rest2
          | none => none
      | Tok.minus :: rest =>
          match parseMul n rest with
          | some (v, rest2) => parseAddTail n (acc.sub v) rest2
          | none => none
      | _ => some (acc, ts)

/-- Multiplicative expression: left-associated `*`/`/` over unary
expressions. -/
def parseMul : Nat → List Tok → Option (JsNum × List Tok)
  | 0, _ => none
  | Nat.succ n, ts =>
      match parseUnary n ts with
      | some (v, rest) => parseMulTail n v rest
      | none => none

/-- Continuation of a multiplicative chain. -/
def parseMulTail : Nat → JsNum → List Tok → Option (JsNum × List Tok)
  | 0, _, _ => none
  | Nat.succ n, acc, ts =>
      match ts with
      | Tok.star :: rest =>
          match parseUnary n rest with
          | some (v, rest2) => parseMulTail n (acc.mul v) rest2
          | none => none
      | Tok.slash :: rest =>
          match parseUnary n rest with
          | some (v, rest2) => parseMulTail n (acc.div v) rest2
          | none => none
      | _ => some (acc, ts)

/-- Unary: any run of unary `+`/`-` before a primary. -/
def parseUnary : Nat → List Tok → Option (JsNum × List Tok)
  | 0, _ => none
  | Nat.succ n, ts =>
      match ts with
      | Tok.plus :: rest => parseUnary n rest
      | Tok.minus :: rest =>
          (parseUnary n rest).map (fun p => (p.1.neg, p.2))
      | _ => parsePrimary n ts

/-- Primary: a numeric literal or a parenthesised expression. -/
def parsePrimary : Nat → List Tok → Option (JsNum × List Tok)
  | 0, _ => none
  | Nat.succ n, ts =>
      match ts with
      | Tok.num q :: rest => some (JsNum.fin q, rest)
      | Tok.lparen :: rest =>
          match parseAdd n rest with
          | some (v, Tok.rparen :: rest2) => some (v, rest2)
          | _ => none
      | _ => none

end

/-- Parse a full token list; anything left over is a syntax (or, for
juxtaposed primaries such as `5(2)`, runtime) error. -/
def parseTokens (ts : List Tok) : Option JsNum :=
  match parseAdd (8 * ts.length + 16) ts with
  | some (v, []) => some v
  | _ => none

/-- Evaluate a safe residue; `none` is any thrown error, which the
caller's `try` converts to 0. -/
def evalResidue (s : List Char) : Option JsNum :=
  match lex s with
  | some ts => parseTokens ts
  | none => none

/-! ## The evaluator -/

/-- The `string | number` argument of `evaluateExpression`. -/
inductive ExprInput where
  | str (s : String)
  | num (n : JsNum)
deriving Repr

/-- `evaluateExpression` from `src/services/chartaApi.ts`: a number is
returned unchanged; a string is lower-cased, trimmed and substituted,
the residue must pass the safety regex (else 0), is evaluated as
arithmetic (errors give 0), and the result is rounded to two decimal
places unless it is NaN, which gives 0. -/
def evaluateExpression (expression : ExprInput) (context : Ctx) : JsNum :=
  match expression with
  | ExprInput.num n => n
  | ExprInput.str s =>
      let processed := residue s context
      if isSafe processed then
        match evalResidue processed with
        | none => JsNum.fin 0
        | some JsNum.nan => JsNum.fin 0
        | some (JsNum.fin q) => JsNum.fin (roundTo2 q)
        | some JsNum.posInf => JsNum.posInf
        | some JsNum.negInf => JsNum.negInf
      else JsNum.fin 0

/-! ## Data model (`src/services/chartaApi.ts` interfaces) -/

/-- A material from the library (the fields the engine reads). -/
structure Material where
  id : String
  thickness : ℚ
deriving DecidableEq, Repr

/-- Global settings (the fields the engine reads). -/
structure GlobalSettings where
  materialThickness : ℚ
  backPanelThickness : ℚ
  backPanelGrooveDepth : ℚ
  defaultEdgeBanding : ℚ
deriving Repr

/-- A per-role material assignment on a pattern. -/
structure MaterialAssignment where
  materialId : String
  thickness : ℚ
deriving Repr

/-- `CabinetPattern.materials`. -/
structure PatternMaterials where
  carcass : Option MaterialAssignment := none
  back : Option MaterialAssignment := none
  front : Option MaterialAssignment := none
  shelf : Option MaterialAssignment := none
deriving Repr

/-- Zone types. -/
inductive ZoneType where
  | drawer | door | shelf | opening | fixedShelf | applianceSpace | divider
deriving DecidableEq, Repr

/-- A zone (the fields the engine reads). -/
structure PatternZone where
  id : String
  type : ZoneType
deriving DecidableEq, Repr

/-- A column: its own stacked zone list. -/
structure PatternColumn where
  id : String
  zones : List PatternZone
deriving DecidableEq, Repr

/-- Per-edge edge-banding flags of a rule (truthiness of the
`boolean | string` fields). -/
structure EdgeBandingFlags where
  length1 : Bool := false
  length2 : Bool := false
  width1 : Bool := false
  width2 : Bool := false
deriving Repr

/-- A part rule (the fields the engine reads). -/
structure PartRule where
  partName : String
  lengthExpression : String
  widthExpression : String
  quantityExpression : String
  materialId : Option String := none
  material : Option String := none
  grain : Option String := none
  edgeBanding : Option EdgeBandingFlags := none
deriving Repr

/-- A cabinet pattern (the fields the engine reads). -/
structure CabinetPattern where
  columns : Option (List PatternColumn) := none
  columnProportions : Option (List ℚ) := none
  zones : List PatternZone := []
  partRules : List PartRule := []
  materials : Option PatternMaterials := none
  -- `variables` in the source; renamed because `variables` is a Lean keyword
  vars : Option (List (String × ℚ)) := none
deriving Repr

/-- Side construction methods. -/
inductive SideConstruction where
  | sidesOnBottom | bottomBetweenSides | allBetween
deriving DecidableEq, Repr

/-- Back panel methods. -/
inductive BackPanelMethod where
  | overlay | insetGroove | insetRebate
deriving DecidableEq, Repr

/-- `RuleSet.construction`. -/
structure RsConstruction where
  sideConstruction : SideConstruction
  backPanelMethod : BackPanelMethod
deriving Repr

/-- `RuleSet.offsets`. -/
structure RsOffsets where
  drawerFrontGap : ℚ
  doorGap : ℚ
  shelfInset : ℚ
  drawerSlideOffset : ℚ
  backPanelThickness : ℚ
  backGrooveDepth : ℚ
deriving Repr

/-- A construction rule set (the fields the engine reads). -/
structure RuleSet where
  construction : RsConstruction
  offsets : RsOffsets
deriving Repr

/-- Cabinet dimensions. -/
structure Dimensions where
  height : ℚ
  width : ℚ
  depth : ℚ
deriving Repr

/-- An output cut part.  Length, width and quantity keep the JS-number
type: the engine stores `Math.round` results, which are infinite when
the evaluated value was. -/
structure CutPart where
  partName : String
  length : JsNum
  width : JsNum
  quantity : JsNum
  materialId : Option String
  material : Option String
  grain : Option String
  edgeBanding : Option String
deriving DecidableEq, Repr

/-! ## Context builder -/

/-- `x || d` on JS numbers read from rule-set offsets: 0 is falsy. -/
def qOrDefault (x d : ℚ) : ℚ := if x = 0 then d else x

/-- Effective carcass thickness:
`pattern.materials?.carcass?.thickness ?? settings.materialThickness`. -/
def effMaterialThickness (pattern : CabinetPattern) (settings : GlobalSettings) : ℚ :=
  match pattern.materials with
  | some m =>
      match m.carcass with
      | some a => a.thickness
      | none => settings.materialThickness
  | none => settings.materialThickness

/-- Effective back-panel thickness:
`pattern.materials?.back?.thickness ?? settings.backPanelThickness`. -/
def effBackPanelThickness (pattern : CabinetPattern) (settings : GlobalSettings) : ℚ :=
  match pattern.materials with
  | some m =>
      match m.back with
      | some a => a.thickness
      | none => settings.backPanelThickness
  | none => settings.backPanelThickness

/-- Effective front thickness:
`pattern.materials?.front?.thickness ?? materialThickness`. -/
def effFrontThickness (pattern : CabinetPattern) (settings : GlobalSettings) : ℚ :=
  match pattern.materials with
  | some m =>
      match m.front with
      | some a => a.thickness
      | none => effMaterialThickness pattern settings
  | none => effMaterialThickness pattern settings

/-- Effective shelf thickness:
`pattern.materials?.shelf?.thickness ?? materialThickness`. -/
def effShelfThickness (pattern : CabinetPattern) (settings : GlobalSettings) : ℚ :=
  match pattern.materials with
  | some m =>
      match m.shelf with
      | some a => a.thickness
      | none => effMaterialThickness pattern settings
  | none => effMaterialThickness pattern settings

/-- `pattern.columns && pattern.columns.length > 0`. -/
def columnsOf (pattern : CabinetPattern) : List PatternColumn :=
  (pattern.columns.getD [])

/-- Whether the pattern is column-based. -/
def isColumnBased (pattern : CabinetPattern) : Bool :=
  !(columnsOf pattern).isEmpty

/-- Count of zones of a given kind over the pattern's layout:
columns' zones when column-based, else the flat zone list. -/
def countZones (pattern : CabinetPattern) (f : ZoneType → Bool) : ℚ :=
  if isColumnBased pattern then
    ((columnsOf pattern).map
      (fun col => (col.zones.filter (fun z => f z.type)).length)).sum
  else (pattern.zones.filter (fun z => f z.type)).length

/-- `ruleSet?.construction.sideConstruction || 'sides-on-bottom'`. -/
def effSideConstruction (ruleSet : Option RuleSet) : SideConstruction :=
  match ruleSet with
  | some rs => rs.construction.sideConstruction
  | none => SideConstruction.sidesOnBottom

/-- `ruleSet?.construction.backPanelMethod || 'overlay'`. -/
def effBackPanelMethod (ruleSet : Option RuleSet) : BackPanelMethod :=
  match ruleSet with
  | some rs => rs.construction.backPanelMethod
  | none => BackPanelMethod.overlay

/-- A column's id-derived variable key: the id with each dash
replaced by an underscore, then `_width`. -/
def columnIdKey (col : PatternColumn) : String :=
  String.mk (col.id.data.map (fun c => if c = '-' then '_' else c)) ++ "_width"

/-- A zone's id-derived variable key: the id with each dash
replaced by an underscore, then `_height`. -/
def zoneIdKey (z : PatternZone) : String :=
  String.mk (z.id.data.map (fun c => if c = '-' then '_' else c)) ++ "_height"

/-- The proportion used for column `i`:
`columnProportions[index] || 1 / columns.length`, where a missing
entry (index out of range, via `undefined`) and a 0 entry are both
falsy, and an absent `columnProportions` array means
`columns.map(() => 1 / columns.length)`, i.e. the same equal share. -/
def effColumnProportion (pattern : CabinetPattern) (i : Nat) : ℚ :=
  let n : ℚ := ((columnsOf pattern).length : ℚ)
  match pattern.columnProportions with
  | some l => qOrDefault ((l.get? i).getD 0) (1 / n)
  | none => 1 / n

/-- The column-width assignments appended after the base context:
for each column, `column_<i>_width` and the id-derived key, both set
to `Math.round(internalWidth * proportion)`. -/
def columnWidthEntries (pattern : CabinetPattern) (internalWidth : ℚ) :
    List (String × ℚ) :=
  let cols := columnsOf pattern
  (List.range cols.length).flatMap (fun i =>
    match cols.get? i with
    | none => []
    | some col =>
        let colWidth : ℚ := (jsRound (internalWidth * effColumnProportion pattern i) : ℚ)
        [("column_" ++ toString i ++ "_width", colWidth),
         (columnIdKey col, colWidth)])

/-- The pattern-variable assignments merged last. -/
def patternVarEntries (pattern : CabinetPattern) : List (String × ℚ) :=
  pattern.vars.getD []

/-- The base context object literal, in property order. -/
def baseContext (dimensions : Dimensions) (settings : GlobalSettings)
    (pattern : CabinetPattern) (ruleSet : Option RuleSet) : Ctx :=
  let height := dimensions.height
  let width := dimensions.width
  let depth := dimensions.depth
  let materialThickness := effMaterialThickness pattern settings
  let backPanelThickness := effBackPanelThickness pattern settings
  let frontThickness := effFrontThickness pattern settings
  let shelfThickness := effShelfThickness pattern settings
  let sideConstruction := effSideConstruction ruleSet
  let backPanelMethod := effBackPanelMethod ruleSet
  let sideHeight :=
    match sideConstruction with
    | SideConstruction.sidesOnBottom => height
    | SideConstruction.bottomBetweenSides => height - materialThickness
    | SideConstruction.allBetween => height - 2 * materialThickness
  let bottomWidth :=
    match sideConstruction with
    | SideConstruction.sidesOnBottom => width - 2 * materialThickness
    | SideConstruction.bottomBetweenSides => width
    | SideConstruction.allBetween => width - 2 * materialThickness
  let topWidth := width - 2 * materialThickness
  let backWidth :=
    if backPanelMethod = BackPanelMethod.overlay then
      width - 2 * materialThickness
    else width - 2 * materialThickness - 2 * settings.backPanelGrooveDepth
  let backHeight :=
    if backPanelMethod = BackPanelMethod.overlay then
      height - 2 * materialThickness
    else height - 2 * materialThickness - 2 * settings.backPanelGrooveDepth
  let drawerFrontGap :=
    match ruleSet with
    | some rs => qOrDefault rs.offsets.drawerFrontGap 3
    | none => 3
  let doorGap :=
    match ruleSet with
    | some rs => qOrDefault rs.offsets.doorGap 3
    | none => 3
  let shelfInset :=
    match ruleSet with
    | some rs => qOrDefault rs.offsets.shelfInset 20
    | none => 20
  let drawerSlideOffset :=
    match ruleSet with
    | some rs => qOrDefault rs.offsets.drawerSlideOffset (25/2)
    | none => 25/2
  let backThickness :=
    match ruleSet with
    | some rs => qOrDefault rs.offsets.backPanelThickness backPanelThickness
    | none => backPanelThickness
  let backGroove :=
    match ruleSet with
    | some rs => qOrDefault rs.offsets.backGrooveDepth settings.backPanelGrooveDepth
    | none => settings.backPanelGrooveDepth
  [("total_height", height),
   ("total_width", width),
   ("total_depth", depth),
   ("material_thickness", materialThickness),
   ("thickness", materialThickness),
   ("carcass_thickness", materialThickness),
   ("front_thickness", frontThickness),
   ("shelf_thickness", shelfThickness),
   ("back_thickness", backThickness),
   ("back_groove", backGroove),
   ("edge_banding", settings.defaultEdgeBanding),
   ("side_height", sideHeight),
   ("bottom_width", bottomWidth),
   ("top_width", topWidth),
   ("back_width", backWidth),
   ("back_height", backHeight),
   ("internal_width", width - 2 * materialThickness),
   ("internal_height", height - 2 * materialThickness),
   ("internal_depth", depth - settings.backPanelGrooveDepth),
   ("drawer_front_gap", drawerFrontGap),
   ("door_gap", doorGap),
   ("shelf_inset", shelfInset),
   ("drawer_slide_offset", drawerSlideOffset),
   ("drawer_count", countZones pattern (fun t => t = ZoneType.drawer)),
   ("door_count", countZones pattern (fun t => t = ZoneType.door)),
   ("shelf_count", countZones pattern
      (fun t => t = ZoneType.shelf || t = ZoneType.fixedShelf)),
   ("remaining_height", height - 2 * materialThickness),
   ("column_count", qOrDefault ((columnsOf pattern).length : ℚ) 1)]

/-- `buildExpressionContext` from `src/services/chartaApi.ts`: the base
object literal, then the per-column width assignments, then the
pattern variables (which may shadow built-ins). -/
def buildExpressionContext (dimensions : Dimensions) (settings : GlobalSettings)
    (pattern : CabinetPattern) (ruleSet : Option RuleSet) : Ctx :=
  applySets (baseContext dimensions settings pattern ruleSet)
    (columnWidthEntries pattern (dimensions.width - 2 * effMaterialThickness pattern settings)
     ++ patternVarEntries pattern)

/-! ## Material resolver -/

/-- `getMaterialThickness` from `src/services/chartaApi.ts`: a missing
or falsy (empty) id, or an id not in the library, gives the fallback;
otherwise the found material's thickness. -/
def getMaterialThickness (materialId : Option String) (materials : List Material)
    (fallbackThickness : ℚ) : ℚ :=
  match materialId with
  | none => fallbackThickness
  | some id =>
      if id = "" then fallbackThickness
      else
        match materials.find? (fun m => m.id == id) with
        | some m => m.thickness
        | none => fallbackThickness

/-! ## Part rule processor -/

/-- The zone height used in the column branch: equal division of the
internal height among the column's zones (`colZoneProportions` is
always built as `zones.map(() => 1 / zones.length)`). -/
def columnZoneHeight (internalHeight : ℚ) (zoneCount : Nat) : ℚ :=
  (jsRound (internalHeight * (1 / (zoneCount : ℚ))) : ℚ)

/-- The zone-height assignments of a column-based pattern:
`col_<i>_zone_<j>_height` and the zone-id key per zone. -/
def columnZoneEntries (cols : List PatternColumn) (internalHeight : ℚ) :
    List (String × ℚ) :=
  (List.range cols.length).flatMap (fun i =>
    match cols.get? i with
    | none => []
    | some col =>
        (List.range col.zones.length).flatMap (fun j =>
          match col.zones.get? j with
          | none => []
          | some z =>
              let zoneHeight := columnZoneHeight internalHeight col.zones.length
              [("col_" ++ toString i ++ "_zone_" ++ toString j ++ "_height",
                zoneHeight),
               (zoneIdKey z, zoneHeight)]))

/-- The proportions used by a flat-zones pattern: the supplied array
only when its length matches the zone count, else equal division. -/
def effFlatProportions (zones : List PatternZone)
    (zoneProportions : Option (List ℚ)) : List ℚ :=
  match zoneProportions with
  | some zp =>
      if zp.length = zones.length then zp
      else zones.map (fun _ => 1 / qOrDefault (zones.length : ℚ) 1)
  | none => zones.map (fun _ => 1 / qOrDefault (zones.length : ℚ) 1)

/-- The zone-height assignments of a flat-zones pattern:
`zone_<i>_height` and the zone-id key per zone. -/
def flatZoneEntries (zones : List PatternZone) (zoneProportions : Option (List ℚ))
    (internalHeight : ℚ) : List (String × ℚ) :=
  let proportions := effFlatProportions zones zoneProportions
  (List.range zones.length).flatMap (fun i =>
    match zones.get? i with
    | none => []
    | some z =>
        let zoneHeight : ℚ :=
          (jsRound (internalHeight * ((proportions.get? i).getD 0)) : ℚ)
        [("zone_" ++ toString i ++ "_height", zoneHeight),
         (zoneIdKey z, zoneHeight)])

/-- The context as it stands when the part rules are processed: the
built context, then the spread of `variableOverrides`, then the
zone-height assignments (column-based patterns use equal division and
never read the `zoneProportions` argument). -/
def finalContext (pattern : CabinetPattern) (dimensions : Dimensions)
    (globalSettings : GlobalSettings)
    (variableOverrides : Option (List (String × ℚ)))
    (zoneProportions : Option (List ℚ)) (ruleSet : Option RuleSet) : Ctx :=
  let ctx0 := buildExpressionContext dimensions globalSettings pattern ruleSet
  let ctx1 :=
    match variableOverrides with
    | some vo => applySets ctx0 vo
    | none => ctx0
  let internalHeight := dimensions.height - 2 * globalSettings.materialThickness
  if isColumnBased pattern then
    applySets ctx1 (columnZoneEntries (columnsOf pattern) internalHeight)
  else
    applySets ctx1 (flatZoneEntries pattern.zones zoneProportions internalHeight)

/-- The rule-scoped context: the shared context plus `part_thickness`,
resolved from the rule's material id with the context's
`material_thickness` as fallback. -/
def ruleContext (ctx : Ctx) (materialsList : List Material) (rule : PartRule) : Ctx :=
  ctxSet ctx "part_thickness"
    (getMaterialThickness rule.materialId materialsList (ctxGet ctx "material_thickness"))

/-- The edge-banding label: `L1`/`L2`/`W1`/`W2` for each truthy flag,
joined by `, `; an absent flags object or no truthy flag gives no
label (`edgeBanding || undefined`). -/
def edgeBandingLabel (rule : PartRule) : Option String :=
  match rule.edgeBanding with
  | none => none
  | some eb =>
      let edges :=
        (if eb.length1 then ["L1"] else []) ++
        (if eb.length2 then ["L2"] else []) ++
        (if eb.width1 then ["W1"] else []) ++
        (if eb.width2 then ["W2"] else [])
      let label := String.intercalate ", " edges
      if label = "" then none else some label

/-- The body of the rule loop in `calculateParts`: resolve the rule's
thickness, evaluate length, width and quantity against the rule-scoped
context, drop the part when the evaluated length or width is `<= 0`,
else emit the `CutPart` with `Math.round`ed length and width and the
quantity clamped up to 1. -/
def processRule (ctx : Ctx) (materialsList : List Material) (rule : PartRule) :
    Option CutPart :=
  let rc := ruleContext ctx materialsList rule
  let length := evaluateExpression (ExprInput.str rule.lengthExpression) rc
  let width := evaluateExpression (ExprInput.str rule.widthExpression) rc
  let quantity :=
    jsMaxOne (jsRoundNum (evaluateExpression (ExprInput.str rule.quantityExpression) rc))
  if jsLeZero length || jsLeZero width then none
  else
    some
      { partName := rule.partName
        length := jsRoundNum length
        width := jsRoundNum width
        quantity := quantity
        materialId := rule.materialId
        material := rule.material
        grain := rule.grain
        edgeBanding := edgeBandingLabel rule }

/-- `calculateParts` from `src/services/chartaApi.ts`: build the
context, apply overrides and zone heights, then process the part rules
in declaration order, skipping invalid parts (`continue`). -/
def calculateParts (pattern : CabinetPattern) (dimensions : Dimensions)
    (globalSettings : GlobalSettings)
    (variableOverrides : Option (List (String × ℚ)))
    (zoneProportions : Option (List ℚ))
    (ruleSet : Option RuleSet)
    (materials : Option (List Material)) : List CutPart :=
  let ctx := finalContext pattern dimensions globalSettings variableOverrides
    zoneProportions ruleSet
  let materialsList := materials.getD []
  pattern.partRules.filterMap (processRule ctx materialsList)

/-! ## Spec-modelled extended material resolution

`src/utils/cabinetLogic.ts` extends `calculateParts` with a
caller-supplied `materialOverrides` argument; that file is not part of
the source snapshot (only its callers and the spec describe it). -/

/-- The instance-level override entry for a part: a lookup in the
caller-supplied `materialOverrides` record. -/
def instanceOverrideFor (materialOverrides : List (String × String))
    (key : String) : Option String :=
  (materialOverrides.find? (fun p => p.1 == key)).map Prod.snd

/-- Modelled from the spec: the per-part material-thickness resolution
of the extended `calculateParts` in `src/utils/cabinetLogic.ts`, which
is missing from the source snapshot.  Spec 4.3: "instance-level
override (caller-supplied materialOverrides keyed by role/part) →
rule-declared materialId → pattern-declared role default → global
default thickness.  Each level is optional; the first present level
wins."  A declared id is looked up through `getMaterialThickness`,
whose fallback is the next level down. -/
def resolvePartThickness (instanceOverrideId : Option String)
    (ruleMaterialId : Option String) (patternRoleThickness : Option ℚ)
    (materials : List Material) (globalDefault : ℚ) : ℚ :=
  let level3 : ℚ :=
    match patternRoleThickness with
    | some t => t
    | none => globalDefault
  let level2 : ℚ :=
    match ruleMaterialId with
    | some _ => getMaterialThickness ruleMaterialId materials level3
    | none => level3
  match instanceOverrideId with
  | some _ => getMaterialThickness instanceOverrideId materials level2
  | none => level2

/-! ## Helper predicates and lemmas -/

/-- The JS comparison `x > 0`. -/
def jsGtZero : JsNum → Bool
  | JsNum.fin q => decide (0 < q)
  | JsNum.posInf => true
  | JsNum.negInf => false
  | JsNum.nan => false

/-- Nonnegativity of an emitted dimension. -/
def jsNonNeg : JsNum → Bool
  | JsNum.fin q => decide (0 ≤ q)
  | JsNum.posInf => true
  | JsNum.negInf => false
  | JsNum.nan => false

/-! ## Concrete fixtures used by the closed theorems -/

/-- The global settings of the end-to-end example: 18 mm carcass,
6 mm back panel (groove depth and edge banding as in the store
defaults). -/
def exampleSettings : GlobalSettings :=
  { materialThickness := 18, backPanelThickness := 6,
    backPanelGrooveDepth := 10, defaultEdgeBanding := 1/2 }

/-- The dimensions of the end-to-end example. -/
def exampleDimensions : Dimensions := { height := 720, width := 600, depth := 560 }

/-- The one-rule pattern of the end-to-end example. -/
def lateralPattern : CabinetPattern :=
  { partRules := [{ partName := "Lateral",
                    lengthExpression := "total_height - 2*material_thickness",
                    widthExpression := "total_depth - back_thickness",
                    quantityExpression := "2" }] }

/-- A pattern with a rule whose evaluated length is 0.3 mm. -/
def tinyPartPattern : CabinetPattern :=
  { partRules := [{ partName := "Tiny", lengthExpression := "0.3",
                    widthExpression := "100", quantityExpression := "1" }] }

/-- A pattern declaring only a carcass thickness (20 mm). -/
def carcassOnlyPattern : CabinetPattern :=
  { materials := some { carcass := some { materialId := "m-carc", thickness := 20 } } }

/-- A two-column pattern with proportions summing to 2, not 1. -/
def twoColumnPattern : CabinetPattern :=
  { columns := some [{ id := "a", zones := [] }, { id := "b", zones := [] }],
    columnProportions := some [1, 1] }

/-- A pattern declaring only a back-panel thickness (8 mm). -/
def backMaterialPattern : CabinetPattern :=
  { materials := some { back := some { materialId := "m-back", thickness := 8 } } }

/-- A rule set whose numeric offsets are all 0. -/
def zeroOffsetsRuleSet : RuleSet :=
  { construction := { sideConstruction := SideConstruction.sidesOnBottom,
                      backPanelMethod := BackPanelMethod.overlay },
    offsets := { drawerFrontGap := 0, doorGap := 0, shelfInset := 0,
                 drawerSlideOffset := 0, backPanelThickness := 0,
                 backGrooveDepth := 0 } }

theorem find?_map_ctxSet_of_ne (ctx : Ctx) (k k' : String) (v : ℚ) (h : k' ≠ k) :
    List.find? (fun p => p.1 == k)
      (ctx.map (fun p => if p.1 == k' then (k', v) else p)) =
    List.find? (fun p => p.1 == k) ctx := by
  induction ctx with
  | nil => rfl
  | cons p rest ih =>
      simp only [List.map_cons]
      by_cases hp : (p.1 == k') = true
      · rw [if_pos hp]
        have h1 : ¬ (((k', v) : String × ℚ).1 == k) = true := by
          simp only [beq_iff_eq]
          exact h
        have h2 : ¬ (p.1 == k) = true := by
          simp only [beq_iff_eq]
          rw [beq_iff_eq.mp hp]
          exact h
        rw [@List.find?_cons_of_neg _ (fun q => q.1 == k) (k', v) _ h1,
          @List.find?_cons_of_neg _ (fun q => q.1 == k) p _ h2]
        exact ih
      · rw [if_neg hp]
        by_cases hpk : (p.1 == k) = true
        · rw [@List.find?_cons_of_pos _ (fun q => q.1 == k) p _ hpk,
            @List.find?_cons_of_pos _ (fun q => q.1 == k) p _ hpk]
        · rw [@List.find?_cons_of_neg _ (fun q => q.1 == k) p _ hpk,
            @List.find?_cons_of_neg _ (fun q => q.1 == k) p _ hpk]
          exact ih

theorem find?_append_singleton_of_ne (ctx : Ctx) (k k' : String) (v : ℚ) (h : k' ≠ k) :
    List.find? (fun p => p.1 == k) (ctx ++ [(k', v)]) =
    List.find? (fun p => p.1 == k) ctx := by
  induction ctx with
  | nil =>
      have h1 : ¬ (((k', v) : String × ℚ).1 == k) = true := by
        simp only [beq_iff_eq]
        exact h
      simp only [List.nil_append]
      rw [@List.find?_cons_of_neg _ (fun q => q.1 == k) (k', v) _ h1]
  | cons p rest ih =>
      simp only [List.cons_append]
      by_cases hpk : (p.1 == k) = true
      · rw [@List.find?_cons_of_pos _ (fun q => q.1 == k) p _ hpk,
          @List.find?_cons_of_pos _ (fun q => q.1 == k) p _ hpk]
      · rw [@List.find?_cons_of_neg _ (fun q => q.1 == k) p _ hpk,
          @List.find?_cons_of_neg _ (fun q => q.1 == k) p _ hpk]
        exact ih

theorem ctxGet_ctxSet_of_ne (ctx : Ctx) (k k' : String) (v : ℚ) (h : k' ≠ k) :
    ctxGet (ctxSet ctx k' v) k = ctxGet ctx k := by
  unfold ctxSet ctxGet
  by_cases hany : ctx.any (fun p => p.1 == k') = true
  · rw [if_pos hany, find?_map_ctxSet_of_ne ctx k k' v h]
  · rw [if_neg hany, find?_append_singleton_of_ne ctx k k' v h]

theorem ctxGet_applySets_of_ne (l : List (String × ℚ)) (ctx : Ctx) (k : String)
    (h : ∀ e ∈ l, e.1 ≠ k) : ctxGet (applySets ctx l) k = ctxGet ctx k := by
  induction l generalizing ctx with
  | nil => rfl
  | cons e rest ih =>
      have step : applySets ctx (e :: rest) = applySets (ctxSet ctx e.1 e.2) rest := rfl
      rw [step, ih (ctxSet ctx e.1 e.2) (fun x hx => h x (List.mem_cons_of_mem e hx)),
        ctxGet_ctxSet_of_ne ctx k e.1 e.2 (h e (List.mem_cons_self e rest))]

theorem evaluateExpression_str_ne_nan (s : String) (ctx : Ctx) :
    evaluateExpression (ExprInput.str s) ctx ≠ JsNum.nan := by
  unfold evaluateExpression
  by_cases hsafe : isSafe (residue s ctx) = true
  · simp only [hsafe, if_true]
    cases hev : evalResidue (residue s ctx) with
    | none => simp
    | some v => cases v <;> simp
  · simp [hsafe]

theorem jsNonNeg_jsRoundNum_of_not_le_zero (x : JsNum)
    (hx : jsLeZero x = false) (hnan : x ≠ JsNum.nan) :
    jsNonNeg (jsRoundNum x) = true := by
  cases x with
  | fin q =>
      have hq : 0 < q := by
        by_contra hcon
        push_neg at hcon
        simp [jsLeZero, hcon] at hx
      unfold jsRoundNum jsNonNeg
      simp only [decide_eq_true_eq]
      have hz : (0 : ℤ) ≤ jsRound q := by
        unfold jsRound
        exact Rat.le_floor.mpr (by push_cast; linarith)
      exact_mod_cast hz
  | posInf => rfl
  | negInf => simp [jsLeZero] at hx
  | nan => exact absurd rfl hnan

theorem processRule_some_dims_nonneg (ctx : Ctx) (ml : List Material)
    (rule : PartRule) (part : CutPart) (h : processRule ctx ml rule = some part) :
    jsNonNeg part.length = true ∧ jsNonNeg part.width = true := by
  unfold processRule at h
  by_cases hcond :
      (jsLeZero (evaluateExpression (ExprInput.str rule.lengthExpression)
          (ruleContext ctx ml rule)) ||
       jsLeZero (evaluateExpression (ExprInput.str rule.widthExpression)
          (ruleContext ctx ml rule))) = true
  · rw [if_pos hcond] at h
    exact absurd h (by simp)
  · rw [if_neg hcond] at h
    have hboth := hcond
    rw [Bool.or_eq_true] at hboth
    push_neg at hboth
    obtain ⟨hL, hW⟩ := hboth
    have hLf := Bool.eq_false_iff.mpr hL
    have hWf := Bool.eq_false_iff.mpr hW
    have hpart := (Option.some.inj h).symm
    constructor
    · rw [hpart]
      exact jsNonNeg_jsRoundNum_of_not_le_zero _ hLf
        (evaluateExpression_str_ne_nan _ _)
    · rw [hpart]
      exact jsNonNeg_jsRoundNum_of_not_le_zero _ hWf
        (evaluateExpression_str_ne_nan _ _)

/-! ## Claim theorems -/

set_option maxRecDepth 100000

/-- C3: for every string expression and every context, a residue (the
expression after variable substitution) that contains any character
outside digits, whitespace and `+ - * / ( ) .` makes
`evaluateExpression` return 0; the function is total, so it never
throws. -/
theorem c3_unsafe_residue_evaluates_to_zero (s : String) (ctx : Ctx) (c : Char)
    (hmem : c ∈ residue s ctx) (hbad : isSafeChar c = false) :
    evaluateExpression (ExprInput.str s) ctx = JsNum.fin 0 := by
  have hall : (residue s ctx).all isSafeChar = false := by
    cases hres : (residue s ctx).all isSafeChar
    · rfl
    · exact absurd (List.all_eq_true.mp hres c hmem) (by simp [hbad])
  have hsafe : isSafe (residue s ctx) = false := by
    unfold isSafe
    rw [hall, Bool.and_false]
  simp [evaluateExpression, hsafe]

/-- Witness for C3: the expression `foo;` in the empty context. -/
theorem c3_unsafe_residue_evaluates_to_zero_witness :
    (';' ∈ residue "foo;" []) ∧ isSafeChar ';' = false ∧
      evaluateExpression (ExprInput.str "foo;") [] = JsNum.fin 0 :=
  ⟨by decide, by decide,
    c3_unsafe_residue_evaluates_to_zero "foo;" [] ';' (by decide) (by decide)⟩

unseal Rat.inv Rat.mul Rat.add Rat.sub in
/-- C4 counterexample: the residue of `1/0` is safe and grammatically
valid, yet the call returns `Infinity`, not 0 — the code only maps NaN
to 0, and `Math.round(Infinity)/100` is `Infinity`. -/
theorem c4_counterexample_division_by_zero :
    isSafe (residue "1/0" []) = true ∧
    evaluateExpression (ExprInput.str "1/0") [] = JsNum.posInf ∧
    JsNum.posInf ≠ JsNum.fin 0 :=
  ⟨by decide, by decide, by decide⟩

/-- C4 (amended): for a safe residue, a NaN result becomes 0 and a
finite result is rounded to 2 decimal places, but an infinite result
is returned unchanged (not mapped to 0); a safe residue that fails to
parse gives 0. -/
theorem c4_result_policy (s : String) (ctx : Ctx)
    (hsafe : isSafe (residue s ctx) = true) :
    (evalResidue (residue s ctx) = some JsNum.nan →
       evaluateExpression (ExprInput.str s) ctx = JsNum.fin 0) ∧
    (∀ q : ℚ, evalResidue (residue s ctx) = some (JsNum.fin q) →
       evaluateExpression (ExprInput.str s) ctx = JsNum.fin (roundTo2 q)) ∧
    (evalResidue (residue s ctx) = some JsNum.posInf →
       evaluateExpression (ExprInput.str s) ctx = JsNum.posInf) ∧
    (evalResidue (residue s ctx) = some JsNum.negInf →
       evaluateExpression (ExprInput.str s) ctx = JsNum.negInf) ∧
    (evalResidue (residue s ctx) = none →
       evaluateExpression (ExprInput.str s) ctx = JsNum.fin 0) := by
  refine ⟨fun h => ?_, fun q h => ?_, fun h => ?_, fun h => ?_, fun h => ?_⟩ <;>
    simp [evaluateExpression, hsafe, h]

unseal Rat.inv Rat.mul Rat.add Rat.sub in
/-- Witness for C4 (amended): `3/2` rounds to 1.5. -/
theorem c4_result_policy_witness :
    evaluateExpression (ExprInput.str "3/2") [] = JsNum.fin (roundTo2 (3/2)) :=
  (c4_result_policy "3/2" [] (by decide)).2.1 (3/2) (by decide)

unseal Rat.inv Rat.mul Rat.add Rat.sub in
/-- C5: the end-to-end example — the `Lateral` rule with dimensions
720 × 600 × 560 and global thicknesses 18/6 produces exactly one part,
684 × 554, quantity 2. -/
theorem c5_end_to_end_example :
    calculateParts lateralPattern exampleDimensions exampleSettings
        none none none none =
      [{ partName := "Lateral", length := JsNum.fin 684, width := JsNum.fin 554,
         quantity := JsNum.fin 2, materialId := none, material := none,
         grain := none, edgeBanding := none }] := by
  decide

unseal Rat.inv Rat.mul Rat.add Rat.sub in
/-- C2 counterexample: a rule whose length formula evaluates to 0.3
survives the `<= 0` check but is emitted with `Math.round(0.3) = 0`,
so the returned list contains a `CutPart` whose length is not
positive. -/
theorem c2_counterexample_rounded_zero_length :
    ¬ (∀ part ∈ calculateParts tinyPartPattern exampleDimensions exampleSettings
          none none none none, jsGtZero part.length = true) := by
  decide

/-- C2 (amended): a rule whose evaluated length or width is `<= 0` is
dropped while processing continues, so every emitted part comes from
positive evaluated dimensions; but the emitted length and width are
the evaluated values rounded to whole millimetres, so they are only
guaranteed nonnegative (an evaluated value below 0.5 rounds to 0). -/
theorem c2_nonpositive_parts_dropped (pattern : CabinetPattern) (d : Dimensions)
    (s : GlobalSettings) (vo : Option (List (String × ℚ)))
    (zp : Option (List ℚ)) (rs : Option RuleSet) (m : Option (List Material)) :
    (∀ part ∈ calculateParts pattern d s vo zp rs m,
        jsNonNeg part.length = true ∧ jsNonNeg part.width = true) ∧
    (∀ (ctx : Ctx) (ml : List Material) (rule : PartRule),
        (jsLeZero (evaluateExpression (ExprInput.str rule.lengthExpression)
            (ruleContext ctx ml rule)) = true ∨
         jsLeZero (evaluateExpression (ExprInput.str rule.widthExpression)
            (ruleContext ctx ml rule)) = true) →
        processRule ctx ml rule = none) := by
  constructor
  · intro part hpart
    rw [calculateParts] at hpart
    obtain ⟨rule, _, hsome⟩ := List.mem_filterMap.mp hpart
    exact processRule_some_dims_nonneg _ _ _ _ hsome
  · intro ctx ml rule h
    unfold processRule
    rcases h with h | h <;> simp [h]

unseal Rat.inv Rat.mul Rat.add Rat.sub in
/-- Witness for C2 (amended): the tiny-part example, where the emitted
part has length 0, and a rule with length 0 is dropped. -/
theorem c2_nonpositive_parts_dropped_witness :
    (∀ part ∈ calculateParts tinyPartPattern exampleDimensions exampleSettings
        none none none none,
        jsNonNeg part.length = true ∧ jsNonNeg part.width = true) ∧
    processRule [] []
      { partName := "Zero", lengthExpression := "0", widthExpression := "5",
        quantityExpression := "1" } = none :=
  ⟨(c2_nonpositive_parts_dropped tinyPartPattern exampleDimensions exampleSettings
      none none none none).1,
   (c2_nonpositive_parts_dropped tinyPartPattern exampleDimensions exampleSettings
      none none none none).2 [] []
      { partName := "Zero", lengthExpression := "0", widthExpression := "5",
        quantityExpression := "1" } (Or.inl (by decide))⟩


/-- C6: for every height `H`, width `W` and effective carcass
thickness `t`, `buildExpressionContext` sets the construction-aware
variables exactly as: sides-on-bottom gives `side_height = H` and
`bottom_width = top_width = W - 2t`; bottom-between-sides gives
`side_height = H - t`, `bottom_width = W`, `top_width = W - 2t`;
all-between gives `side_height = H - 2t` and
`bottom_width = top_width = W - 2t` (assuming the pattern's own
variables and column keys do not shadow these names). -/
theorem c6_construction_aware_variables (d : Dimensions) (s : GlobalSettings)
    (p : CabinetPattern) (rs : Option RuleSet)
    (hav : ∀ e ∈ columnWidthEntries p (d.width - 2 * effMaterialThickness p s)
        ++ patternVarEntries p,
        e.1 ≠ "side_height" ∧ e.1 ≠ "bottom_width" ∧ e.1 ≠ "top_width") :
    (effSideConstruction rs = SideConstruction.sidesOnBottom →
        ctxGet (buildExpressionContext d s p rs) "side_height" = d.height ∧
        ctxGet (buildExpressionContext d s p rs) "bottom_width" =
          d.width - 2 * effMaterialThickness p s ∧
        ctxGet (buildExpressionContext d s p rs) "top_width" =
          d.width - 2 * effMaterialThickness p s) ∧
    (effSideConstruction rs = SideConstruction.bottomBetweenSides →
        ctxGet (buildExpressionContext d s p rs) "side_height" =
          d.height - effMaterialThickness p s ∧
        ctxGet (buildExpressionContext d s p rs) "bottom_width" = d.width ∧
        ctxGet (buildExpressionContext d s p rs) "top_width" =
          d.width - 2 * effMaterialThickness p s) ∧
    (effSideConstruction rs = SideConstruction.allBetween →
        ctxGet (buildExpressionContext d s p rs) "side_height" =
          d.height - 2 * effMaterialThickness p s ∧
        ctxGet (buildExpressionContext d s p rs) "bottom_width" =
          d.width - 2 * effMaterialThickness p s ∧
        ctxGet (buildExpressionContext d s p rs) "top_width" =
          d.width - 2 * effMaterialThickness p s) := by
  have hside : ctxGet (buildExpressionContext d s p rs) "side_height" =
      ctxGet (baseContext d s p rs) "side_height" :=
    ctxGet_applySets_of_ne _ _ _ (fun e he => (hav e he).1)
  have hbottom : ctxGet (buildExpressionContext d s p rs) "bottom_width" =
      ctxGet (baseContext d s p rs) "bottom_width" :=
    ctxGet_applySets_of_ne _ _ _ (fun e he => (hav e he).2.1)
  have htop : ctxGet (buildExpressionContext d s p rs) "top_width" =
      ctxGet (baseContext d s p rs) "top_width" :=
    ctxGet_applySets_of_ne _ _ _ (fun e he => (hav e he).2.2)
  have hbs : ctxGet (baseContext d s p rs) "side_height" =
      (match effSideConstruction rs with
       | SideConstruction.sidesOnBottom => d.height
       | SideConstruction.bottomBetweenSides => d.height - effMaterialThickness p s
       | SideConstruction.allBetween => d.height - 2 * effMaterialThickness p s) := rfl
  have hbb : ctxGet (baseContext d s p rs) "bottom_width" =
      (match effSideConstruction rs with
       | SideConstruction.sidesOnBottom => d.width - 2 * effMaterialThickness p s
       | SideConstruction.bottomBetweenSides => d.width
       | SideConstruction.allBetween => d.width - 2 * effMaterialThickness p s) := rfl
  have hbt : ctxGet (baseContext d s p rs) "top_width" =
      d.width - 2 * effMaterialThickness p s := rfl
  refine ⟨fun hc => ⟨?_, ?_, ?_⟩, fun hc => ⟨?_, ?_, ?_⟩, fun hc => ⟨?_, ?_, ?_⟩⟩ <;>
    simp only [hside, hbottom, htop, hbs, hbb, hbt, hc]

unseal Rat.inv Rat.mul Rat.add Rat.sub in
/-- Witness for C6: with no rule set, the construction is
sides-on-bottom; at 720 × 600 with carcass 18, side height is 720 and
bottom width is 564. -/
theorem c6_construction_aware_variables_witness :
    ctxGet (buildExpressionContext exampleDimensions exampleSettings
        lateralPattern none) "side_height" = 720 ∧
    ctxGet (buildExpressionContext exampleDimensions exampleSettings
        lateralPattern none) "bottom_width" = 564 := by
  have h := (c6_construction_aware_variables exampleDimensions exampleSettings
      lateralPattern none (by decide)).1 (by decide)
  refine ⟨?_, ?_⟩
  · rw [h.1]
    decide
  · rw [h.2.1]
    decide

unseal Rat.inv Rat.mul Rat.add Rat.sub in
/-- C7 counterexample: a pattern that declares only a carcass
thickness (20) leaves the front role undeclared, yet the front
thickness resolves to 20 — the pattern's carcass thickness — and not
to the global default 18. -/
theorem c7_counterexample_front_falls_back_to_carcass :
    ctxGet (buildExpressionContext exampleDimensions exampleSettings
        carcassOnlyPattern none) "front_thickness" = 20 ∧
    exampleSettings.materialThickness = 18 ∧ (20 : ℚ) ≠ 18 := by
  refine ⟨by decide, by decide, by decide⟩

/-- C7 (amended): a pattern-declared thickness for a role always wins;
with no pattern declaration, carcass falls back to the global
`materialThickness` and back to the global `backPanelThickness`, but
front and shelf fall back to the **effective carcass thickness**
(pattern carcass declaration first, then the global default), not
directly to a global default of their own. -/
theorem c7_role_thickness_resolution (d : Dimensions) (s : GlobalSettings)
    (p : CabinetPattern) (rs : Option RuleSet)
    (hav : ∀ e ∈ columnWidthEntries p (d.width - 2 * effMaterialThickness p s)
        ++ patternVarEntries p,
        e.1 ≠ "carcass_thickness" ∧ e.1 ≠ "front_thickness" ∧
        e.1 ≠ "shelf_thickness" ∧ e.1 ≠ "back_thickness") :
    ctxGet (buildExpressionContext d s p rs) "carcass_thickness" =
      effMaterialThickness p s ∧
    ctxGet (buildExpressionContext d s p rs) "front_thickness" =
      effFrontThickness p s ∧
    ctxGet (buildExpressionContext d s p rs) "shelf_thickness" =
      effShelfThickness p s ∧
    (rs = none → ctxGet (buildExpressionContext d s p rs) "back_thickness" =
      effBackPanelThickness p s) ∧
    effMaterialThickness p s =
      (((p.materials.bind PatternMaterials.carcass).map
          MaterialAssignment.thickness).getD s.materialThickness) ∧
    effBackPanelThickness p s =
      (((p.materials.bind PatternMaterials.back).map
          MaterialAssignment.thickness).getD s.backPanelThickness) ∧
    effFrontThickness p s =
      (((p.materials.bind PatternMaterials.front).map
          MaterialAssignment.thickness).getD (effMaterialThickness p s)) ∧
    effShelfThickness p s =
      (((p.materials.bind PatternMaterials.shelf).map
          MaterialAssignment.thickness).getD (effMaterialThickness p s)) := by
  refine ⟨?_, ?_, ?_, ?_, ?_, ?_, ?_, ?_⟩
  · exact ctxGet_applySets_of_ne _ _ _ (fun e he => (hav e he).1)
  · exact ctxGet_applySets_of_ne _ _ _ (fun e he => (hav e he).2.1)
  · exact ctxGet_applySets_of_ne _ _ _ (fun e he => (hav e he).2.2.1)
  · intro h
    subst h
    exact ctxGet_applySets_of_ne _ _ _ (fun e he => (hav e he).2.2.2)
  · cases hm : p.materials with
    | none => simp [effMaterialThickness, hm]
    | some pm => cases hc : pm.carcass <;> simp [effMaterialThickness, hm, hc]
  · cases hm : p.materials with
    | none => simp [effBackPanelThickness, hm]
    | some pm => cases hc : pm.back <;> simp [effBackPanelThickness, hm, hc]
  · cases hm : p.materials with
    | none => simp [effFrontThickness, effMaterialThickness, hm]
    | some pm => cases hc : pm.front <;> simp [effFrontThickness, effMaterialThickness, hm, hc]
  · cases hm : p.materials with
    | none => simp [effShelfThickness, effMaterialThickness, hm]
    | some pm => cases hc : pm.shelf <;> simp [effShelfThickness, effMaterialThickness, hm, hc]

unseal Rat.inv Rat.mul Rat.add Rat.sub in
/-- Witness for C7 (amended): the carcass-only pattern resolves
carcass and front thickness to the declared 20. -/
theorem c7_role_thickness_resolution_witness :
    ctxGet (buildExpressionContext exampleDimensions exampleSettings
        carcassOnlyPattern none) "carcass_thickness" = 20 ∧
    ctxGet (buildExpressionContext exampleDimensions exampleSettings
        carcassOnlyPattern none) "front_thickness" = 20 := by
  have h := c7_role_thickness_resolution exampleDimensions exampleSettings
    carcassOnlyPattern none (by decide)
  refine ⟨?_, ?_⟩
  · rw [h.1]
    decide
  · rw [h.2.1]
    decide

unseal Rat.inv Rat.mul Rat.add Rat.sub in
/-- C10 counterexample: with a rule set whose `backPanelThickness`
offset is 0, `back_thickness` falls back to the pattern-declared back
thickness (8), not to the global back-panel thickness (6). -/
theorem c10_counterexample_back_thickness_fallback :
    ctxGet (buildExpressionContext exampleDimensions exampleSettings
        backMaterialPattern (some zeroOffsetsRuleSet)) "back_thickness" = 8 ∧
    zeroOffsetsRuleSet.offsets.backPanelThickness = 0 ∧
    exampleSettings.backPanelThickness = 6 ∧ (8 : ℚ) ≠ 6 :=
  ⟨by decide, by decide, by decide, by decide⟩

/-- C10 (amended): a rule-set offset of 0 is falsy under `||` and
behaves as if absent: `drawer_front_gap`, `door_gap`, `shelf_inset`
and `drawer_slide_offset` fall back to the built-in defaults 3, 3, 20
and 12.5; `back_thickness` falls back to the **effective** back-panel
thickness (pattern-declared back thickness first, then the global
default), and `back_groove` to the global groove depth (assuming no
shadowing of these names). -/
theorem c10_zero_offsets_behave_as_absent (d : Dimensions) (s : GlobalSettings)
    (p : CabinetPattern) (rs : RuleSet)
    (hav : ∀ e ∈ columnWidthEntries p (d.width - 2 * effMaterialThickness p s)
        ++ patternVarEntries p,
        e.1 ≠ "drawer_front_gap" ∧ e.1 ≠ "door_gap" ∧ e.1 ≠ "shelf_inset" ∧
        e.1 ≠ "drawer_slide_offset" ∧ e.1 ≠ "back_thickness" ∧
        e.1 ≠ "back_groove") :
    (rs.offsets.drawerFrontGap = 0 →
        ctxGet (buildExpressionContext d s p (some rs)) "drawer_front_gap" = 3) ∧
    (rs.offsets.doorGap = 0 →
        ctxGet (buildExpressionContext d s p (some rs)) "door_gap" = 3) ∧
    (rs.offsets.shelfInset = 0 →
        ctxGet (buildExpressionContext d s p (some rs)) "shelf_inset" = 20) ∧
    (rs.offsets.drawerSlideOffset = 0 →
        ctxGet (buildExpressionContext d s p (some rs)) "drawer_slide_offset" = 25/2) ∧
    (rs.offsets.backPanelThickness = 0 →
        ctxGet (buildExpressionContext d s p (some rs)) "back_thickness" =
          effBackPanelThickness p s) ∧
    (rs.offsets.backGrooveDepth = 0 →
        ctxGet (buildExpressionContext d s p (some rs)) "back_groove" =
          s.backPanelGrooveDepth) := by
  have h1 : ctxGet (buildExpressionContext d s p (some rs)) "drawer_front_gap" =
      qOrDefault rs.offsets.drawerFrontGap 3 :=
    ctxGet_applySets_of_ne _ _ _ (fun e he => (hav e he).1)
  have h2 : ctxGet (buildExpressionContext d s p (some rs)) "door_gap" =
      qOrDefault rs.offsets.doorGap 3 :=
    ctxGet_applySets_of_ne _ _ _ (fun e he => (hav e he).2.1)
  have h3 : ctxGet (buildExpressionContext d s p (some rs)) "shelf_inset" =
      qOrDefault rs.offsets.shelfInset 20 :=
    ctxGet_applySets_of_ne _ _ _ (fun e he => (hav e he).2.2.1)
  have h4 : ctxGet (buildExpressionContext d s p (some rs)) "drawer_slide_offset" =
      qOrDefault rs.offsets.drawerSlideOffset (25/2) :=
    ctxGet_applySets_of_ne _ _ _ (fun e he => (hav e he).2.2.2.1)
  have h5 : ctxGet (buildExpressionContext d s p (some rs)) "back_thickness" =
      qOrDefault rs.offsets.backPanelThickness (effBackPanelThickness p s) :=
    ctxGet_applySets_of_ne _ _ _ (fun e he => (hav e he).2.2.2.2.1)
  have h6 : ctxGet (buildExpressionContext d s p (some rs)) "back_groove" =
      qOrDefault rs.offsets.backGrooveDepth s.backPanelGrooveDepth :=
    ctxGet_applySets_of_ne _ _ _ (fun e he => (hav e he).2.2.2.2.2)
  refine ⟨fun h => ?_, fun h => ?_, fun h => ?_, fun h => ?_, fun h => ?_,
    fun h => ?_⟩
  · rw [h1, h, qOrDefault]
    simp
  · rw [h2, h, qOrDefault]
    simp
  · rw [h3, h, qOrDefault]
    simp
  · rw [h4, h, qOrDefault]
    simp
  · rw [h5, h, qOrDefault]
    simp
  · rw [h6, h, qOrDefault]
    simp

unseal Rat.inv Rat.mul Rat.add Rat.sub in
/-- Witness for C10 (amended): the all-zero-offsets rule set on the
example pattern yields the defaults 3, 3, 20, 12.5. -/
theorem c10_zero_offsets_behave_as_absent_witness :
    ctxGet (buildExpressionContext exampleDimensions exampleSettings
        lateralPattern (some zeroOffsetsRuleSet)) "drawer_front_gap" = 3 ∧
    ctxGet (buildExpressionContext exampleDimensions exampleSettings
        lateralPattern (some zeroOffsetsRuleSet)) "drawer_slide_offset" = 25/2 := by
  have h := c10_zero_offsets_behave_as_absent exampleDimensions exampleSettings
    lateralPattern zeroOffsetsRuleSet (by decide)
  exact ⟨h.1 (by decide), h.2.2.2.1 (by decide)⟩

unseal Rat.inv Rat.mul Rat.add Rat.sub in
/-- C8 counterexample: with two columns and `columnProportions`
`[1, 1]` (sum 2), `column_0_width` is `round(564 * 1) = 564`, not the
normalized `round(564 * (1/2)) = 282` — the engine does not
normalize. -/
theorem c8_counterexample_no_normalization :
    ctxGet (buildExpressionContext exampleDimensions exampleSettings
        twoColumnPattern none) "column_0_width" = 564 ∧
    (jsRound ((564 : ℚ) * (1/2)) : ℚ) = 282 ∧ (564 : ℚ) ≠ 282 :=
  ⟨by decide, by decide, by decide⟩

/-- C8 (amended): per-column width variables are
`round(internalWidth * p_i)` with the **raw** proportion `p_i`
(`columnProportions[i]` when present and nonzero, else the equal share
`1 / columnCount`); no normalization is applied.  An absent array
means equal division.  Flat-zone patterns likewise use the supplied
`zoneProportions` raw, and only when the array length matches the zone
count. -/
theorem c8_raw_proportions_used (p : CabinetPattern) (iw ih : ℚ) :
    (∀ (i : Nat) (col : PatternColumn), (columnsOf p).get? i = some col →
        ("column_" ++ toString i ++ "_width",
          (jsRound (iw * effColumnProportion p i) : ℚ)) ∈ columnWidthEntries p iw) ∧
    (p.columnProportions = none → ∀ i : Nat,
        effColumnProportion p i = 1 / ((columnsOf p).length : ℚ)) ∧
    (∀ (zones : List PatternZone) (zp : List ℚ) (i : Nat) (z : PatternZone),
        zones.get? i = some z → zp.length = zones.length →
        ("zone_" ++ toString i ++ "_height",
          (jsRound (ih * ((zp.get? i).getD 0)) : ℚ)) ∈
          flatZoneEntries zones (some zp) ih) := by
  refine ⟨?_, ?_, ?_⟩
  · intro i col hcol
    obtain ⟨hlt, _⟩ := List.get?_eq_some.mp hcol
    rw [List.get?_eq_getElem?] at hcol
    exact List.mem_flatMap.mpr ⟨i, List.mem_range.mpr hlt, by simp [hcol]⟩
  · intro h i
    simp [effColumnProportion, h]
  · intro zones zp i z hz hlen
    obtain ⟨hlt, _⟩ := List.get?_eq_some.mp hz
    rw [List.get?_eq_getElem?] at hz
    refine List.mem_flatMap.mpr ⟨i, List.mem_range.mpr hlt, ?_⟩
    simp [hz, effFlatProportions, hlen]

unseal Rat.inv Rat.mul Rat.add Rat.sub in
/-- Witness for C8 (amended): the two-column pattern with raw
proportions `[1, 1]` really assigns `round(564 * 1)` to column 0. -/
theorem c8_raw_proportions_used_witness :
    ("column_" ++ toString 0 ++ "_width",
      (jsRound ((564 : ℚ) * effColumnProportion twoColumnPattern 0) : ℚ)) ∈
      columnWidthEntries twoColumnPattern 564 :=
  (c8_raw_proportions_used twoColumnPattern 564 0).1 0
    { id := "a", zones := [] } (by decide)

/-- C9: for a column-based pattern, `calculateParts` ignores its
`zoneProportions` argument entirely — the result is the same for any
two values of the argument, and every `col_<i>_zone_<j>_height`
variable (and its id-derived twin) is the equal-division value
`round(internalHeight / zoneCount)`; for flat-zones patterns the
argument influences the result only when its length equals the number
of zones (otherwise the result equals the no-argument result). -/
theorem c9_zone_proportions_ignored_for_columns (p : CabinetPattern)
    (d : Dimensions) (s : GlobalSettings) (vo : Option (List (String × ℚ)))
    (rs : Option RuleSet) (m : Option (List Material)) :
    (isColumnBased p = true →
        ∀ zp zp' : Option (List ℚ),
          calculateParts p d s vo zp rs m = calculateParts p d s vo zp' rs m) ∧
    (∀ (ih : ℚ) (i j : Nat) (col : PatternColumn) (z : PatternZone),
        (columnsOf p).get? i = some col → col.zones.get? j = some z →
        ("col_" ++ toString i ++ "_zone_" ++ toString j ++ "_height",
          columnZoneHeight ih col.zones.length) ∈
          columnZoneEntries (columnsOf p) ih ∧
        (zoneIdKey z, columnZoneHeight ih col.zones.length) ∈
          columnZoneEntries (columnsOf p) ih) ∧
    (isColumnBased p = false →
        ∀ zp : List ℚ, zp.length ≠ p.zones.length →
          calculateParts p d s vo (some zp) rs m =
            calculateParts p d s vo none rs m) := by
  refine ⟨?_, ?_, ?_⟩
  · intro h zp zp'
    simp only [calculateParts, finalContext, h, if_true]
  · intro ih i j col z hcol hz
    obtain ⟨hlti, _⟩ := List.get?_eq_some.mp hcol
    obtain ⟨hltj, _⟩ := List.get?_eq_some.mp hz
    rw [List.get?_eq_getElem?] at hcol hz
    constructor
    · refine List.mem_flatMap.mpr ⟨i, List.mem_range.mpr hlti, ?_⟩
      simp only [List.get?_eq_getElem?, hcol]
      refine List.mem_flatMap.mpr ⟨j, List.mem_range.mpr hltj, ?_⟩
      simp [hz]
    · refine List.mem_flatMap.mpr ⟨i, List.mem_range.mpr hlti, ?_⟩
      simp only [List.get?_eq_getElem?, hcol]
      refine List.mem_flatMap.mpr ⟨j, List.mem_range.mpr hltj, ?_⟩
      simp [hz]
  · intro h zp hlen
    simp only [calculateParts, finalContext, h, Bool.false_eq_true, if_false,
      flatZoneEntries, effFlatProportions, hlen, if_neg]

unseal Rat.inv Rat.mul Rat.add Rat.sub in
/-- Witness for C9: a column-based pattern gives the same cut list
for `zoneProportions` `[0.9, 0.1]` and `none`. -/
theorem c9_zone_proportions_ignored_for_columns_witness :
    calculateParts twoColumnPattern exampleDimensions exampleSettings none
      (some [9/10, 1/10]) none none =
    calculateParts twoColumnPattern exampleDimensions exampleSettings none
      none none none :=
  (c9_zone_proportions_ignored_for_columns twoColumnPattern exampleDimensions
    exampleSettings none none none).1 (by decide) (some [9/10, 1/10]) none

/-- C1: (modelled from the spec, see `resolvePartThickness`) the
four-level precedence for a part's material thickness: an
instance-level override id found in the library wins; else a
rule-declared id found in the library; else the pattern-declared role
thickness; else the global default. -/
theorem c1_material_override_precedence (ov rid : Option String)
    (pt : Option ℚ) (materials : List Material) (g : ℚ) :
    (∀ (id : String) (mt : Material), ov = some id → id ≠ "" →
        materials.find? (fun x => x.id == id) = some mt →
        resolvePartThickness ov rid pt materials g = mt.thickness) ∧
    (∀ (id : String) (mt : Material), ov = none → rid = some id → id ≠ "" →
        materials.find? (fun x => x.id == id) = some mt →
        resolvePartThickness ov rid pt materials g = mt.thickness) ∧
    (∀ t : ℚ, ov = none → rid = none → pt = some t →
        resolvePartThickness ov rid pt materials g = t) ∧
    (ov = none → rid = none → pt = none →
        resolvePartThickness ov rid pt materials g = g) := by
  refine ⟨?_, ?_, ?_, ?_⟩
  · intro id mt hov hid hfind
    subst hov
    simp [resolvePartThickness, getMaterialThickness, hid, hfind]
  · intro id mt hov hrid hid hfind
    subst hov
    subst hrid
    simp [resolvePartThickness, getMaterialThickness, hid, hfind]
  · intro t hov hrid hpt
    subst hov
    subst hrid
    subst hpt
    simp [resolvePartThickness]
  · intro hov hrid hpt
    subst hov
    subst hrid
    subst hpt
    simp [resolvePartThickness]

/-- Witness for C1: each of the four levels at concrete inputs
(library `[{m1, 16}]`, pattern role thickness 19, global 18). -/
theorem c1_material_override_precedence_witness :
    resolvePartThickness (some "m1") none none [{ id := "m1", thickness := 16 }] 18 = 16 ∧
    resolvePartThickness none (some "m1") none [{ id := "m1", thickness := 16 }] 18 = 16 ∧
    resolvePartThickness none none (some 19) [] 18 = 19 ∧
    resolvePartThickness none none none [] 18 = 18 :=
  ⟨(c1_material_override_precedence (some "m1") none none
      [{ id := "m1", thickness := 16 }] 18).1 "m1"
      { id := "m1", thickness := 16 } rfl (by decide) (by decide),
   (c1_material_override_precedence none (some "m1") none
      [{ id := "m1", thickness := 16 }] 18).2.1 "m1"
      { id := "m1", thickness := 16 } rfl rfl (by decide) (by decide),
   (c1_material_override_precedence none none (some 19) [] 18).2.2.1 19
      rfl rfl rfl,
   (c1_material_override_precedence none none none [] 18).2.2.2 rfl rfl rfl⟩

end Ligna
